import Mathlib

/-!
Shallow embedding of `src/server.js` (the EBK registration API).

The server exposes three signed POST endpoints — `/ebk/birth`, `/ebk/transfer`,
`/ebk/verify` — each gated by a freshness check on the caller-supplied unix
timestamp and an MD5-based signature over a `|`-joined field tuple, and backed
by three Postgres tables (`births`, `transfers`, `audit`).

Modelling decisions:
* The database is a `DB` structure of three lists (insertion order = row order).
* `crypto.createHash("md5")...digest("hex")` is external library code; the
  digest is an explicit parameter `h : String → String` of every definition
  that uses it, exactly as the wrapped string is built in the source.
* `now()` (wall clock, unix seconds) is an explicit `Int` parameter.
* Request bodies are structures of `Option` fields: `none` models an absent
  (or `null`/`undefined`) JSON field.  JavaScript coercions in the source are
  modelled exactly:
  - `Number(b.ts || 0)` → `Option.getD 0` (0 itself is falsy, giving 0 again);
  - `b.x || null` on a string field → `none` when the field is absent *or* the
    empty string (the empty string is falsy in JavaScript);
  - `Array.prototype.join("|")` renders `undefined`/`null` elements as `""`.
* `ON CONFLICT (cert_id) DO NOTHING` with `cert_id TEXT UNIQUE`: Postgres
  UNIQUE never treats two NULLs as equal, so a NULL `cert_id` never conflicts.
* `SELECT * FROM births WHERE cert_id=$1 LIMIT 1`: SQL `=` with a NULL
  parameter matches no row.
-/

namespace EBK

/-- JavaScript rendering of a possibly-absent string field inside
`Array.prototype.join`: `undefined` and `null` render as the empty string. -/
def jsStr : Option String → String
  | none => ""
  | some s => s

/-- JavaScript rendering of a possibly-absent numeric field inside
`Array.prototype.join`: numbers print in decimal, `undefined`/`null` as "". -/
def jsInt : Option Int → String
  | none => ""
  | some n => toString n

/-- `x || null` on a JavaScript string value: absent and `""` are falsy and
collapse to `null`; any other string passes through. -/
def strOrNull : Option String → Option String
  | none => none
  | some s => if s = "" then none else some s

/-- `Number(x || 0)` on a JavaScript numeric value: absent collapses to 0,
and 0 itself is falsy so it also yields 0. -/
def numOr0 : Option Int → Int
  | none => 0
  | some n => n

/-- `enforceFresh` from the source: `Math.abs(now() - ts) <= 300`. -/
def enforceFresh (now ts : Int) : Bool :=
  decide ((now - ts).natAbs ≤ 300)

/-- `verifySig` from the source: the expected signature is the digest of
`` `${ts}|${core}|${API_SECRET}` `` and it must equal the supplied `sig`
exactly.  `h` is the hex MD5 digest function, `secret` is `API_SECRET`. -/
def verifySig (h : String → String) (secret : String)
    (ts : Int) (core : String) (sig : String) : Bool :=
  h (toString ts ++ "|" ++ core ++ "|" ++ secret) == sig

/-- Body of a `/ebk/birth` request (the JSON fields the handler reads). -/
structure BirthBody where
  ts : Option Int
  sig : Option String
  cert_id : Option String
  cert_ts : Option Int
  p1 : Option String
  p2 : Option String
  gen : Option Int
  tier : Option Int
  dna_hash : Option String
  owner : Option String
  kit_sid : Option String
deriving Repr, DecidableEq

/-- Body of a `/ebk/transfer` request. -/
structure TransferBody where
  ts : Option Int
  sig : Option String
  sid : Option String
  from_owner : Option String
  to_owner : Option String
deriving Repr, DecidableEq

/-- Body of a `/ebk/verify` request. -/
structure VerifyBody where
  ts : Option Int
  sig : Option String
  cert_id : Option String
  dna_hash : Option String
deriving Repr, DecidableEq

/-- A row of the `births` table (schema from `initSchema`). -/
structure BirthRow where
  kit_sid : Option String
  p1_sid : Option String
  p2_sid : Option String
  gen : Int
  tier : Int
  dna_hash : Option String
  cert_id : Option String
  cert_ts : Int
  owner_uuid : Option String
  created_at : Int
deriving Repr, DecidableEq

/-- A row of the `transfers` table. -/
structure TransferRow where
  sid : Option String
  from_owner : Option String
  to_owner : Option String
  ts : Int
deriving Repr, DecidableEq

/-- The raw JSONB payload stored in the `audit` table. -/
inductive Payload where
  | birth (b : BirthBody)
  | transfer (b : TransferBody)
deriving Repr, DecidableEq

/-- A row of the `audit` table. -/
structure AuditRow where
  event : String
  payload : Payload
  ts : Int
deriving Repr, DecidableEq

/-- The persistent store: the three tables, rows in insertion order. -/
structure DB where
  births : List BirthRow
  transfers : List TransferRow
  audit : List AuditRow
deriving Repr, DecidableEq

/-- HTTP responses the handlers produce.  `bad r` is the 400 response from
`bad(res, r)`; `semFail r` is the 200 `{ok:false, reason:r}` response of the
verify endpoint; `ok` is `{ok:true}`; `okRecord row` is `{ok:true, record}`. -/
inductive Resp where
  | ok
  | okRecord (r : BirthRow)
  | bad (reason : String)
  | semFail (reason : String)
deriving Repr, DecidableEq

/-- `Array.prototype.join("|")` on a list of already-rendered strings. -/
def joinBar : List String → String
  | [] => ""
  | [x] => x
  | x :: y :: xs => x ++ "|" ++ joinBar (y :: xs)

/-- The signed core of a birth request:
`[b.cert_id, b.cert_ts, b.p1, b.p2, b.gen, b.tier, b.dna_hash, b.owner].join("|")`. -/
def birthCore (b : BirthBody) : String :=
  joinBar [jsStr b.cert_id, jsInt b.cert_ts, jsStr b.p1, jsStr b.p2,
           jsInt b.gen, jsInt b.tier, jsStr b.dna_hash, jsStr b.owner]

/-- The signed core of a transfer request:
`[b.sid, b.from_owner, b.to_owner].join("|")`. -/
def transferCore (b : TransferBody) : String :=
  joinBar [jsStr b.sid, jsStr b.from_owner, jsStr b.to_owner]

/-- The signed core of a verify request: `[b.cert_id, b.dna_hash].join("|")`. -/
def verifyCore (b : VerifyBody) : String :=
  joinBar [jsStr b.cert_id, jsStr b.dna_hash]

/-- Whether an existing `cert_id` column value conflicts with an inserted one
under Postgres `UNIQUE`: only two equal non-NULL values conflict. -/
def certConflict (existing incoming : Option String) : Bool :=
  match existing, incoming with
  | some a, some b => a == b
  | _, _ => false

/-- `INSERT INTO births ... ON CONFLICT (cert_id) DO NOTHING`: append the row
unless some existing row's `cert_id` conflicts with the new row's. -/
def insertBirth (rows : List BirthRow) (r : BirthRow) : List BirthRow :=
  if rows.any (fun x => certConflict x.cert_id r.cert_id) then rows
  else rows ++ [r]

/-- The `births` row built by the birth handler from the request body. -/
def mkBirthRow (b : BirthBody) (created_at : Int) : BirthRow :=
  { kit_sid := strOrNull b.kit_sid
    p1_sid := strOrNull b.p1
    p2_sid := strOrNull b.p2
    gen := numOr0 b.gen
    tier := numOr0 b.tier
    dna_hash := strOrNull b.dna_hash
    cert_id := strOrNull b.cert_id
    cert_ts := numOr0 b.cert_ts
    owner_uuid := strOrNull b.owner
    created_at := created_at }

/-- The `app.post("/ebk/birth")` handler: freshness gate, signature gate,
conflict-tolerant insert into `births`, audit append, `{ok:true}`. -/
def birthRoute (h : String → String) (secret : String) (now : Int)
    (db : DB) (b : BirthBody) : Resp × DB :=
  let ts := numOr0 b.ts
  let sig := jsStr b.sig
  let core := birthCore b
  if !enforceFresh now ts then (.bad "stale ts", db)
  else if !verifySig h secret ts core sig then (.bad "bad sig", db)
  else
    let created_at := now
    let row := mkBirthRow b created_at
    (.ok, { db with
            births := insertBirth db.births row
            audit := db.audit ++ [⟨"birth", .birth b, created_at⟩] })

/-- The `transfers` row built by the transfer handler from the request body. -/
def mkTransferRow (b : TransferBody) (ts : Int) : TransferRow :=
  { sid := strOrNull b.sid
    from_owner := strOrNull b.from_owner
    to_owner := strOrNull b.to_owner
    ts := ts }

/-- The `app.post("/ebk/transfer")` handler: freshness gate, signature gate,
unconditional append into `transfers`, audit append, `{ok:true}`. -/
def transferRoute (h : String → String) (secret : String) (now : Int)
    (db : DB) (b : TransferBody) : Resp × DB :=
  let ts := numOr0 b.ts
  let sig := jsStr b.sig
  let core := transferCore b
  if !enforceFresh now ts then (.bad "stale ts", db)
  else if !verifySig h secret ts core sig then (.bad "bad sig", db)
  else
    (.ok, { db with
            transfers := db.transfers ++ [mkTransferRow b ts]
            audit := db.audit ++ [⟨"transfer", .transfer b, now⟩] })

/-- `SELECT * FROM births WHERE cert_id=$1 LIMIT 1` with `$1 = b.cert_id`:
a NULL parameter matches no row; otherwise the first row with that id. -/
def findCert (rows : List BirthRow) : Option String → Option BirthRow
  | none => none
  | some c => rows.find? (fun r => r.cert_id == some c)

/-- The guard `b.dna_hash && row.dna_hash && b.dna_hash !== row.dna_hash`:
both hashes truthy (present, non-empty) and strictly different. -/
def dnaMismatch (asserted stored : Option String) : Bool :=
  match asserted, stored with
  | some a, some s => a != "" && s != "" && a != s
  | _, _ => false

/-- The `app.post("/ebk/verify")` handler: freshness gate, signature gate,
lookup by `cert_id`, content-hash cross-check; read-only. -/
def verifyRoute (h : String → String) (secret : String) (now : Int)
    (db : DB) (b : VerifyBody) : Resp × DB :=
  let ts := numOr0 b.ts
  let sig := jsStr b.sig
  let core := verifyCore b
  if !enforceFresh now ts then (.bad "stale ts", db)
  else if !verifySig h secret ts core sig then (.bad "bad sig", db)
  else
    match findCert db.births b.cert_id with
    | none => (.semFail "not found", db)
    | some row =>
      if dnaMismatch b.dna_hash row.dna_hash then (.semFail "dna mismatch", db)
      else (.okRecord row, db)

/-! ### Helper lemmas -/

lemma certConflict_none (e : Option String) : certConflict e none = false := by
  cases e <;> rfl

lemma joinBar_cons (a : String) (l : List String) (hl : l ≠ []) :
    joinBar (a :: l) = a ++ "|" ++ joinBar l := by
  cases l with
  | nil => exact absurd rfl hl
  | cons b bs => rfl

lemma string_append_right_cancel {x y t : String} (h : x ++ t = y ++ t) : x = y := by
  apply String.ext
  have hd := congrArg String.data h
  simp only [String.data_append] at hd
  exact List.append_cancel_right hd

lemma string_append_left_cancel {t x y : String} (h : t ++ x = t ++ y) : x = y := by
  apply String.ext
  have hd := congrArg String.data h
  simp only [String.data_append] at hd
  exact List.append_cancel_left hd

lemma joinBar_one_diff {pre post : List String} {x y : String}
    (h : joinBar (pre ++ x :: post) = joinBar (pre ++ y :: post)) : x = y := by
  induction pre with
  | nil =>
    cases post with
    | nil => simpa [joinBar] using h
    | cons p ps =>
      simp only [List.nil_append] at h
      rw [joinBar_cons x (p :: ps) (by simp), joinBar_cons y (p :: ps) (by simp)] at h
      exact string_append_right_cancel (string_append_right_cancel h)
  | cons p ps ih =>
    simp only [List.cons_append] at h
    rw [joinBar_cons p (ps ++ x :: post) (by simp),
        joinBar_cons p (ps ++ y :: post) (by simp)] at h
    exact ih (string_append_left_cancel h)

lemma verifySig_same_sig_inj {h : String → String} (hinj : Function.Injective h)
    {secret : String} {ts : Int} {c1 c2 sig : String}
    (h1 : verifySig h secret ts c1 sig = true)
    (h2 : verifySig h secret ts c2 sig = true) : c1 = c2 := by
  simp only [verifySig, beq_iff_eq] at h1 h2
  have hmsg := hinj (h1.trans h2.symm)
  exact string_append_left_cancel
    (string_append_right_cancel (string_append_right_cancel hmsg))

/-! ### Claim theorems -/

/-- C3: the freshness check accepts a timestamp `t` iff `|serverNow − t| ≤ 300`
seconds; a skew of exactly 300 seconds is fresh and 301 seconds is stale,
symmetrically for past and future timestamps. -/
theorem freshness_window_boundary (now t : Int) :
    (enforceFresh now t = true ↔ |now - t| ≤ 300) ∧
    enforceFresh now (now - 300) = true ∧
    enforceFresh now (now + 300) = true ∧
    enforceFresh now (now - 301) = false ∧
    enforceFresh now (now + 301) = false := by
  refine ⟨?_, ?_, ?_, ?_, ?_⟩ <;>
    simp only [enforceFresh, decide_eq_true_eq, decide_eq_false_iff_not,
      Int.abs_eq_natAbs] <;>
    omega

lemma birth_msg_eq (ts : Int) (secret : String) (b : BirthBody) :
    toString ts ++ "|" ++ birthCore b ++ "|" ++ secret =
    String.intercalate "|"
      [toString ts, jsStr b.cert_id, jsInt b.cert_ts, jsStr b.p1, jsStr b.p2,
       jsInt b.gen, jsInt b.tier, jsStr b.dna_hash, jsStr b.owner, secret] := by
  simp only [birthCore, joinBar, String.intercalate, String.intercalate.go]
  simp [String.append_assoc]

lemma transfer_msg_eq (ts : Int) (secret : String) (t : TransferBody) :
    toString ts ++ "|" ++ transferCore t ++ "|" ++ secret =
    String.intercalate "|"
      [toString ts, jsStr t.sid, jsStr t.from_owner, jsStr t.to_owner, secret] := by
  simp only [transferCore, joinBar, String.intercalate, String.intercalate.go]
  simp [String.append_assoc]

lemma verify_msg_eq (ts : Int) (secret : String) (v : VerifyBody) :
    toString ts ++ "|" ++ verifyCore v ++ "|" ++ secret =
    String.intercalate "|"
      [toString ts, jsStr v.cert_id, jsStr v.dna_hash, secret] := by
  simp only [verifyCore, joinBar, String.intercalate, String.intercalate.go]
  simp [String.append_assoc]

/-- C2: for each operation, signature verification succeeds iff the supplied
signature equals the digest of the string joining the timestamp, the
operation's ordered field values (birth: certificateId, certTimestamp,
parent1, parent2, generation, tier, contentHash, owner; transfer: subjectId,
fromOwner, toOwner; verify: certificateId, contentHash) and the shared secret
with the delimiter `|`, compared for exact string equality. -/
theorem signature_digest_characterization (h : String → String) (secret : String)
    (ts : Int) (sig : String) (b : BirthBody) (t : TransferBody) (v : VerifyBody) :
    (verifySig h secret ts (birthCore b) sig = true ↔
      sig = h (String.intercalate "|"
        [toString ts, jsStr b.cert_id, jsInt b.cert_ts, jsStr b.p1, jsStr b.p2,
         jsInt b.gen, jsInt b.tier, jsStr b.dna_hash, jsStr b.owner, secret])) ∧
    (verifySig h secret ts (transferCore t) sig = true ↔
      sig = h (String.intercalate "|"
        [toString ts, jsStr t.sid, jsStr t.from_owner, jsStr t.to_owner, secret])) ∧
    (verifySig h secret ts (verifyCore v) sig = true ↔
      sig = h (String.intercalate "|"
        [toString ts, jsStr v.cert_id, jsStr v.dna_hash, secret])) := by
  refine ⟨?_, ?_, ?_⟩
  · rw [← birth_msg_eq ts secret b]
    unfold verifySig
    rw [beq_iff_eq]
    exact eq_comm
  · rw [← transfer_msg_eq ts secret t]
    unfold verifySig
    rw [beq_iff_eq]
    exact eq_comm
  · rw [← verify_msg_eq ts secret v]
    unfold verifySig
    rw [beq_iff_eq]
    exact eq_comm

/-- C4: a request (birth, transfer or verify) whose supplied timestamp is
outside the freshness window is answered with failure reason "stale ts" and
the store is untouched — regardless of the supplied signature, since
freshness is decided on the supplied ts before the signature is checked. -/
theorem stale_ts_rejected (h : String → String) (secret : String) (now : Int)
    (db : DB) (b : BirthBody) (t : TransferBody) (v : VerifyBody)
    (hb : enforceFresh now (numOr0 b.ts) = false)
    (ht : enforceFresh now (numOr0 t.ts) = false)
    (hv : enforceFresh now (numOr0 v.ts) = false) :
    birthRoute h secret now db b = (.bad "stale ts", db) ∧
    transferRoute h secret now db t = (.bad "stale ts", db) ∧
    verifyRoute h secret now db v = (.bad "stale ts", db) := by
  refine ⟨?_, ?_, ?_⟩ <;>
    simp [birthRoute, transferRoute, verifyRoute, hb, ht, hv]

theorem stale_ts_rejected_witness :
    enforceFresh 1000 0 = false ∧
    birthRoute (fun s => s) "k" 1000 ⟨[], [], []⟩
        ⟨some 0, none, none, none, none, none, none, none, none, none, none⟩
      = (.bad "stale ts", ⟨[], [], []⟩) ∧
    transferRoute (fun s => s) "k" 1000 ⟨[], [], []⟩
        ⟨some 0, none, none, none, none⟩
      = (.bad "stale ts", ⟨[], [], []⟩) ∧
    verifyRoute (fun s => s) "k" 1000 ⟨[], [], []⟩
        ⟨some 0, none, none, none⟩
      = (.bad "stale ts", ⟨[], [], []⟩) :=
  ⟨by decide,
   stale_ts_rejected (fun s => s) "k" 1000 ⟨[], [], []⟩
     ⟨some 0, none, none, none, none, none, none, none, none, none, none⟩
     ⟨some 0, none, none, none, none⟩
     ⟨some 0, none, none, none⟩
     (by decide) (by decide) (by decide)⟩

/-- C9: a request on any of the three operations whose `ts` field is absent
(or 0, which is equally falsy) has its timestamp coerced to 0 before the
freshness check; whenever the server clock exceeds 300 seconds after the
epoch such a request is rejected with "stale ts" and the store untouched. -/
theorem missing_ts_coerced_to_zero (h : String → String) (secret : String)
    (now : Int) (db : DB) (b : BirthBody) (t : TransferBody) (v : VerifyBody)
    (hb : b.ts = none ∨ b.ts = some 0)
    (ht : t.ts = none ∨ t.ts = some 0)
    (hv : v.ts = none ∨ v.ts = some 0)
    (hnow : 300 < now) :
    numOr0 b.ts = 0 ∧ numOr0 t.ts = 0 ∧ numOr0 v.ts = 0 ∧
    birthRoute h secret now db b = (.bad "stale ts", db) ∧
    transferRoute h secret now db t = (.bad "stale ts", db) ∧
    verifyRoute h secret now db v = (.bad "stale ts", db) := by
  have hb0 : numOr0 b.ts = 0 := by rcases hb with h' | h' <;> simp [numOr0, h']
  have ht0 : numOr0 t.ts = 0 := by rcases ht with h' | h' <;> simp [numOr0, h']
  have hv0 : numOr0 v.ts = 0 := by rcases hv with h' | h' <;> simp [numOr0, h']
  have hf : enforceFresh now 0 = false := by
    simp only [enforceFresh, decide_eq_false_iff_not]
    omega
  refine ⟨hb0, ht0, hv0, ?_, ?_, ?_⟩ <;>
    simp [birthRoute, transferRoute, verifyRoute, hb0, ht0, hv0, hf]

theorem missing_ts_coerced_to_zero_witness :
    ((301 : Int) > 300) ∧
    numOr0 (none : Option Int) = 0 ∧
    birthRoute (fun s => s) "k" 301 ⟨[], [], []⟩
        ⟨none, none, none, none, none, none, none, none, none, none, none⟩
      = (.bad "stale ts", ⟨[], [], []⟩) :=
  ⟨by decide,
   (missing_ts_coerced_to_zero (fun s => s) "k" 301 ⟨[], [], []⟩
     ⟨none, none, none, none, none, none, none, none, none, none, none⟩
     ⟨none, none, none, none, none⟩
     ⟨none, none, none, none⟩
     (Or.inl rfl) (Or.inl rfl) (Or.inl rfl) (by decide)).1,
   ((missing_ts_coerced_to_zero (fun s => s) "k" 301 ⟨[], [], []⟩
     ⟨none, none, none, none, none, none, none, none, none, none, none⟩
     ⟨none, none, none, none, none⟩
     ⟨none, none, none, none⟩
     (Or.inl rfl) (Or.inl rfl) (Or.inl rfl) (by decide)).2).2.2.1⟩

lemma insertBirth_conflict {rows : List BirthRow} {r : BirthRow}
    (h : rows.any (fun x => certConflict x.cert_id r.cert_id) = true) :
    insertBirth rows r = rows := by
  simp [insertBirth, h]

lemma insertBirth_has_id {rows : List BirthRow} {r : BirthRow} {c : String}
    (hc : r.cert_id = some c) :
    (insertBirth rows r).any (fun x => certConflict x.cert_id (some c)) = true := by
  unfold insertBirth
  by_cases hany : rows.any (fun x => certConflict x.cert_id r.cert_id) = true
  · rw [if_pos hany]
    rw [hc] at hany
    exact hany
  · rw [if_neg hany]
    refine List.any_eq_true.mpr ⟨r, List.mem_append_right _ (by simp), ?_⟩
    simp [certConflict, hc]

/-- C1: for a present certificate identifier, the birth operation is
idempotent: a second accepted birth submission carrying the same certificate
identifier leaves the births store exactly as the first left it (no second
row, no mutation), and both submissions receive the success response. -/
theorem birth_idempotent (h : String → String) (secret : String)
    (now1 now2 : Int) (db : DB) (b1 b2 : BirthBody) (c : String)
    (hc1 : strOrNull b1.cert_id = some c) (hc2 : strOrNull b2.cert_id = some c)
    (hf1 : enforceFresh now1 (numOr0 b1.ts) = true)
    (hs1 : verifySig h secret (numOr0 b1.ts) (birthCore b1) (jsStr b1.sig) = true)
    (hf2 : enforceFresh now2 (numOr0 b2.ts) = true)
    (hs2 : verifySig h secret (numOr0 b2.ts) (birthCore b2) (jsStr b2.sig) = true) :
    (birthRoute h secret now1 db b1).1 = .ok ∧
    (birthRoute h secret now2 (birthRoute h secret now1 db b1).2 b2).1 = .ok ∧
    ((birthRoute h secret now2 (birthRoute h secret now1 db b1).2 b2).2).births
      = ((birthRoute h secret now1 db b1).2).births := by
  have hid1 : (mkBirthRow b1 now1).cert_id = some c := hc1
  have hid2 : (mkBirthRow b2 now2).cert_id = some c := hc2
  have e1 : birthRoute h secret now1 db b1
      = (.ok, { db with
                births := insertBirth db.births (mkBirthRow b1 now1)
                audit := db.audit ++ [⟨"birth", .birth b1, now1⟩] }) := by
    simp [birthRoute, hf1, hs1]
  have hkey : (insertBirth db.births (mkBirthRow b1 now1)).any
      (fun x => certConflict x.cert_id ((mkBirthRow b2 now2).cert_id)) = true := by
    rw [hid2]
    exact insertBirth_has_id hid1
  refine ⟨by rw [e1], ?_, ?_⟩
  · rw [e1]
    simp [birthRoute, hf2, hs2]
  · rw [e1]
    simp [birthRoute, hf2, hs2]
    exact insertBirth_conflict hkey

theorem birth_idempotent_witness :
    strOrNull (some "C") = some "C" ∧
    ((birthRoute (fun _ => "S") "k" 0 ⟨[], [], []⟩
        ⟨some 0, some "S", some "C", none, none, none, none, none, none, none,
         none⟩).1 = .ok ∧
     (birthRoute (fun _ => "S") "k" 0
        (birthRoute (fun _ => "S") "k" 0 ⟨[], [], []⟩
          ⟨some 0, some "S", some "C", none, none, none, none, none, none, none,
           none⟩).2
        ⟨some 0, some "S", some "C", none, none, none, none, none, none, none,
         none⟩).1 = .ok ∧
     ((birthRoute (fun _ => "S") "k" 0
        (birthRoute (fun _ => "S") "k" 0 ⟨[], [], []⟩
          ⟨some 0, some "S", some "C", none, none, none, none, none, none, none,
           none⟩).2
        ⟨some 0, some "S", some "C", none, none, none, none, none, none, none,
         none⟩).2).births
       = ((birthRoute (fun _ => "S") "k" 0 ⟨[], [], []⟩
          ⟨some 0, some "S", some "C", none, none, none, none, none, none, none,
           none⟩).2).births) :=
  ⟨by decide,
   birth_idempotent (fun _ => "S") "k" 0 0 ⟨[], [], []⟩
     ⟨some 0, some "S", some "C", none, none, none, none, none, none, none, none⟩
     ⟨some 0, some "S", some "C", none, none, none, none, none, none, none, none⟩
     "C" (by decide) (by decide) (by decide) (by decide) (by decide) (by decide)⟩

/-- C7: the transfer operation performs no deduplication: an accepted transfer
always appends one Transfer Record, so two identical accepted submissions
append two identical rows to the transfers store. -/
theorem transfer_no_dedup (h : String → String) (secret : String)
    (now1 now2 : Int) (db : DB) (b : TransferBody)
    (hf1 : enforceFresh now1 (numOr0 b.ts) = true)
    (hf2 : enforceFresh now2 (numOr0 b.ts) = true)
    (hs : verifySig h secret (numOr0 b.ts) (transferCore b) (jsStr b.sig) = true) :
    (transferRoute h secret now1 db b).1 = .ok ∧
    ((transferRoute h secret now1 db b).2).transfers
      = db.transfers ++ [mkTransferRow b (numOr0 b.ts)] ∧
    (transferRoute h secret now2 (transferRoute h secret now1 db b).2 b).1 = .ok ∧
    ((transferRoute h secret now2 (transferRoute h secret now1 db b).2 b).2).transfers
      = db.transfers
          ++ [mkTransferRow b (numOr0 b.ts), mkTransferRow b (numOr0 b.ts)] := by
  have e1 : transferRoute h secret now1 db b
      = (.ok, { db with
                transfers := db.transfers ++ [mkTransferRow b (numOr0 b.ts)]
                audit := db.audit ++ [⟨"transfer", .transfer b, now1⟩] }) := by
    simp [transferRoute, hf1, hs]
  refine ⟨by rw [e1], by rw [e1], ?_, ?_⟩ <;>
    rw [e1] <;> simp [transferRoute, hf2, hs]

theorem transfer_no_dedup_witness :
    enforceFresh 0 0 = true ∧
    ((transferRoute (fun _ => "S") "k" 0 ⟨[], [], []⟩
        ⟨some 0, some "S", some "X", some "A", some "B"⟩).2).transfers
      = [] ++ [mkTransferRow ⟨some 0, some "S", some "X", some "A", some "B"⟩ 0] ∧
    ((transferRoute (fun _ => "S") "k" 0
        (transferRoute (fun _ => "S") "k" 0 ⟨[], [], []⟩
          ⟨some 0, some "S", some "X", some "A", some "B"⟩).2
        ⟨some 0, some "S", some "X", some "A", some "B"⟩).2).transfers
      = [] ++ [mkTransferRow ⟨some 0, some "S", some "X", some "A", some "B"⟩ 0,
               mkTransferRow ⟨some 0, some "S", some "X", some "A", some "B"⟩ 0] :=
  ⟨by decide,
   ((transfer_no_dedup (fun _ => "S") "k" 0 0 ⟨[], [], []⟩
      ⟨some 0, some "S", some "X", some "A", some "B"⟩
      (by decide) (by decide) (by decide)).2).1,
   (((transfer_no_dedup (fun _ => "S") "k" 0 0 ⟨[], [], []⟩
      ⟨some 0, some "S", some "X", some "A", some "B"⟩
      (by decide) (by decide) (by decide)).2).2).2⟩

/-- C8: every accepted write (birth or transfer) appends exactly one Audit
Entry whose event kind matches the operation and whose payload is the raw
request body — the birth audit append is unconditional on whether the
underlying insert was a no-op for an already-present certificate id. -/
theorem audit_appended_per_write (h : String → String) (secret : String)
    (now : Int) (db : DB) (b : BirthBody) (t : TransferBody)
    (hfb : enforceFresh now (numOr0 b.ts) = true)
    (hsb : verifySig h secret (numOr0 b.ts) (birthCore b) (jsStr b.sig) = true)
    (hft : enforceFresh now (numOr0 t.ts) = true)
    (hst : verifySig h secret (numOr0 t.ts) (transferCore t) (jsStr t.sig) = true) :
    (birthRoute h secret now db b).1 = .ok ∧
    ((birthRoute h secret now db b).2).audit
      = db.audit ++ [⟨"birth", .birth b, now⟩] ∧
    (transferRoute h secret now db t).1 = .ok ∧
    ((transferRoute h secret now db t).2).audit
      = db.audit ++ [⟨"transfer", .transfer t, now⟩] := by
  refine ⟨?_, ?_, ?_, ?_⟩ <;>
    simp [birthRoute, transferRoute, hfb, hsb, hft, hst]

theorem audit_appended_per_write_witness :
    ((⟨[⟨none, none, none, 0, 0, none, some "C", 0, none, 0⟩], [], []⟩ :
        DB).births).any
      (fun x => certConflict x.cert_id (some "C")) = true ∧
    ((birthRoute (fun _ => "S") "k" 0
        ⟨[⟨none, none, none, 0, 0, none, some "C", 0, none, 0⟩], [], []⟩
        ⟨some 0, some "S", some "C", none, none, none, none, none, none, none,
         none⟩).2).audit
      = [] ++ [⟨"birth",
          .birth ⟨some 0, some "S", some "C", none, none, none, none, none,
                  none, none, none⟩, 0⟩] :=
  ⟨by decide,
   ((audit_appended_per_write (fun _ => "S") "k" 0
      ⟨[⟨none, none, none, 0, 0, none, some "C", 0, none, 0⟩], [], []⟩
      ⟨some 0, some "S", some "C", none, none, none, none, none, none, none,
       none⟩
      ⟨some 0, some "S", none, none, none⟩
      (by decide) (by decide) (by decide) (by decide)).2).1⟩

/-- C10: the at-most-one-row-per-certificate-identifier invariant only covers
present identifiers: a birth whose cert_id is absent or falsy is stored with a
NULL certificate id, and every such accepted request appends a fresh row,
because the uniqueness constraint never conflicts on NULL. -/
theorem null_cert_id_always_inserts (h : String → String) (secret : String)
    (now : Int) (db : DB) (b : BirthBody)
    (hc : strOrNull b.cert_id = none)
    (hf : enforceFresh now (numOr0 b.ts) = true)
    (hs : verifySig h secret (numOr0 b.ts) (birthCore b) (jsStr b.sig) = true) :
    (mkBirthRow b now).cert_id = none ∧
    (birthRoute h secret now db b).1 = .ok ∧
    ((birthRoute h secret now db b).2).births = db.births ++ [mkBirthRow b now] := by
  have hid : (mkBirthRow b now).cert_id = none := hc
  have hnoc : db.births.any
      (fun x => certConflict x.cert_id ((mkBirthRow b now).cert_id)) = false := by
    rw [hid]
    simp [certConflict_none]
  refine ⟨hid, ?_, ?_⟩ <;>
    simp [birthRoute, hf, hs, insertBirth, hnoc]

theorem null_cert_id_always_inserts_witness :
    strOrNull (some "") = none ∧
    ((birthRoute (fun _ => "S") "k" 0 ⟨[], [], []⟩
        ⟨some 0, some "S", some "", none, none, none, none, none, none, none,
         none⟩).2).births
      = [] ++ [mkBirthRow
          ⟨some 0, some "S", some "", none, none, none, none, none, none, none,
           none⟩ 0] ∧
    ((birthRoute (fun _ => "S") "k" 0
        (birthRoute (fun _ => "S") "k" 0 ⟨[], [], []⟩
          ⟨some 0, some "S", some "", none, none, none, none, none, none, none,
           none⟩).2
        ⟨some 0, some "S", some "", none, none, none, none, none, none, none,
         none⟩).2).births
      = ((birthRoute (fun _ => "S") "k" 0 ⟨[], [], []⟩
          ⟨some 0, some "S", some "", none, none, none, none, none, none, none,
           none⟩).2).births
        ++ [mkBirthRow
          ⟨some 0, some "S", some "", none, none, none, none, none, none, none,
           none⟩ 0] :=
  ⟨by decide,
   ((null_cert_id_always_inserts (fun _ => "S") "k" 0 ⟨[], [], []⟩
      ⟨some 0, some "S", some "", none, none, none, none, none, none, none,
       none⟩ (by decide) (by decide) (by decide)).2).2,
   ((null_cert_id_always_inserts (fun _ => "S") "k" 0
      (birthRoute (fun _ => "S") "k" 0 ⟨[], [], []⟩
        ⟨some 0, some "S", some "", none, none, none, none, none, none, none,
         none⟩).2
      ⟨some 0, some "S", some "", none, none, none, none, none, none, none,
       none⟩ (by decide) (by decide) (by decide)).2).2⟩

/-- A stored row carries the queried certificate identifier: both are present
and equal.  (SQL `cert_id = $1` matches no row when `$1` is NULL.) -/
def idMatches (q : Option String) (r : BirthRow) : Prop :=
  ∃ c, q = some c ∧ r.cert_id = some c

/-- C6: for every admitted verify request the result is exactly one of:
"not found" when no stored record carries the queried certificate identifier,
"dna mismatch" when the looked-up record and the request both carry non-empty
content hashes that differ, and otherwise the full stored record is returned
as verified; the store is never modified. -/
theorem verify_result_trichotomy (h : String → String) (secret : String)
    (now : Int) (db : DB) (b : VerifyBody)
    (hf : enforceFresh now (numOr0 b.ts) = true)
    (hs : verifySig h secret (numOr0 b.ts) (verifyCore b) (jsStr b.sig) = true) :
    (verifyRoute h secret now db b).2 = db ∧
    (findCert db.births b.cert_id = none ↔
       ∀ r ∈ db.births, ¬ idMatches b.cert_id r) ∧
    (findCert db.births b.cert_id = none →
       (verifyRoute h secret now db b).1 = .semFail "not found") ∧
    (∀ row, findCert db.births b.cert_id = some row →
       row ∈ db.births ∧ idMatches b.cert_id row ∧
       (dnaMismatch b.dna_hash row.dna_hash = true →
          (verifyRoute h secret now db b).1 = .semFail "dna mismatch") ∧
       (dnaMismatch b.dna_hash row.dna_hash = false →
          (verifyRoute h secret now db b).1 = .okRecord row)) ∧
    (∀ a s, dnaMismatch a s = true ↔
       ∃ x y, a = some x ∧ s = some y ∧ x ≠ "" ∧ y ≠ "" ∧ x ≠ y) := by
  have e : verifyRoute h secret now db b
      = (match findCert db.births b.cert_id with
         | none => (.semFail "not found", db)
         | some row =>
           if dnaMismatch b.dna_hash row.dna_hash
           then (.semFail "dna mismatch", db)
           else (.okRecord row, db)) := by
    simp [verifyRoute, hf, hs]
  refine ⟨?_, ?_, ?_, ?_, ?_⟩
  · rw [e]
    cases hfind : findCert db.births b.cert_id with
    | none => rfl
    | some row =>
      by_cases hmm : dnaMismatch b.dna_hash row.dna_hash = true
      · simp [hmm]
      · simp [hmm]
  · cases hq : b.cert_id with
    | none => simp [findCert, idMatches]
    | some c => simp [findCert, idMatches, List.find?_eq_none]
  · intro hfind
    rw [e, hfind]
  · intro row hfind
    have hmem : row ∈ db.births := by
      cases hq : b.cert_id with
      | none => rw [hq] at hfind; exact absurd hfind (by simp [findCert])
      | some c =>
        rw [hq] at hfind
        exact List.mem_of_find?_eq_some hfind
    have hmatch : idMatches b.cert_id row := by
      cases hq : b.cert_id with
      | none => rw [hq] at hfind; exact absurd hfind (by simp [findCert])
      | some c =>
        rw [hq] at hfind
        have := List.find?_some hfind
        exact ⟨c, rfl, by simpa using this⟩
    refine ⟨hmem, hmatch, ?_, ?_⟩
    · intro hmm
      rw [e, hfind]
      simp [hmm]
    · intro hmm
      rw [e, hfind]
      simp [hmm]
  · intro a s
    cases a <;> cases s <;> simp [dnaMismatch, and_assoc]

theorem verify_result_trichotomy_witness :
    enforceFresh 0 0 = true ∧
    (verifyRoute (fun _ => "S") "k" 0
        ⟨[⟨none, none, none, 0, 0, some "H", some "C", 0, none, 0⟩], [], []⟩
        ⟨some 0, some "S", some "C", none⟩).2
      = ⟨[⟨none, none, none, 0, 0, some "H", some "C", 0, none, 0⟩], [], []⟩ :=
  ⟨by decide,
   (verify_result_trichotomy (fun _ => "S") "k" 0
      ⟨[⟨none, none, none, 0, 0, some "H", some "C", 0, none, 0⟩], [], []⟩
      ⟨some 0, some "S", some "C", none⟩ (by decide) (by decide)).1⟩

/-- The ordered, individually rendered signed field values of a birth body. -/
def birthFields (b : BirthBody) : List String :=
  [jsStr b.cert_id, jsInt b.cert_ts, jsStr b.p1, jsStr b.p2,
   jsInt b.gen, jsInt b.tier, jsStr b.dna_hash, jsStr b.owner]

/-- The ordered, individually rendered signed field values of a transfer body. -/
def transferFields (t : TransferBody) : List String :=
  [jsStr t.sid, jsStr t.from_owner, jsStr t.to_owner]

/-- The ordered, individually rendered signed field values of a verify body. -/
def verifyFields (v : VerifyBody) : List String :=
  [jsStr v.cert_id, jsStr v.dna_hash]

lemma birthCore_eq_fields (b : BirthBody) : birthCore b = joinBar (birthFields b) :=
  rfl

lemma transferCore_eq_fields (t : TransferBody) :
    transferCore t = joinBar (transferFields t) :=
  rfl

lemma verifyCore_eq_fields (v : VerifyBody) :
    verifyCore v = joinBar (verifyFields v) :=
  rfl

/-- C5 counterexample: two birth requests whose ordered field tuples differ in
exactly one field — `p1` absent versus `p1 = ""` — are both accepted with the
very same signature, because `Array.join` renders an absent field and an empty
string identically.  So a signature that verifies for one request also
verifies for the other, refuting the claim as stated. -/
theorem sig_binds_every_field_cex :
    (⟨some 0, some "0|C|1||P2|3|2|H|O|k", some "C", some 1, none, some "P2",
      some 3, some 2, some "H", some "O", none⟩ : BirthBody).p1
      ≠ (⟨some 0, some "0|C|1||P2|3|2|H|O|k", some "C", some 1, some "",
          some "P2", some 3, some 2, some "H", some "O", none⟩ : BirthBody).p1 ∧
    (birthRoute (fun s => s) "k" 0 ⟨[], [], []⟩
      ⟨some 0, some "0|C|1||P2|3|2|H|O|k", some "C", some 1, none, some "P2",
       some 3, some 2, some "H", some "O", none⟩).1 = .ok ∧
    (birthRoute (fun s => s) "k" 0 ⟨[], [], []⟩
      ⟨some 0, some "0|C|1||P2|3|2|H|O|k", some "C", some 1, some "", some "P2",
       some 3, some 2, some "H", some "O", none⟩).1 = .ok ∧
    verifySig (fun s => s) "k" 0
      (birthCore ⟨some 0, some "0|C|1||P2|3|2|H|O|k", some "C", some 1, none,
        some "P2", some 3, some 2, some "H", some "O", none⟩)
      "0|C|1||P2|3|2|H|O|k" = true ∧
    verifySig (fun s => s) "k" 0
      (birthCore ⟨some 0, some "0|C|1||P2|3|2|H|O|k", some "C", some 1, some "",
        some "P2", some 3, some 2, some "H", some "O", none⟩)
      "0|C|1||P2|3|2|H|O|k" = true := by
  refine ⟨by decide, ?_, ?_, by decide, by decide⟩ <;> decide

/-- C5 amended: the signature binds every field up to JavaScript string
rendering: for every operation, if two requests' ordered field tuples differ
in exactly one position and the two renderings of that field differ as
strings, then — provided the digest function is injective — no signature
verifies for both requests.  (The restriction is forced by the
counterexample: an absent field and an empty-string field render identically
inside the joined core, so the signature cannot distinguish them.) -/
theorem sig_binds_distinct_renderings (h : String → String)
    (hinj : Function.Injective h) (secret : String) (ts : Int) (sig : String) :
    (∀ (b1 b2 : BirthBody) (pre post : List String) (x y : String),
      birthFields b1 = pre ++ x :: post → birthFields b2 = pre ++ y :: post →
      x ≠ y →
      ¬(verifySig h secret ts (birthCore b1) sig = true ∧
        verifySig h secret ts (birthCore b2) sig = true)) ∧
    (∀ (t1 t2 : TransferBody) (pre post : List String) (x y : String),
      transferFields t1 = pre ++ x :: post →
      transferFields t2 = pre ++ y :: post → x ≠ y →
      ¬(verifySig h secret ts (transferCore t1) sig = true ∧
        verifySig h secret ts (transferCore t2) sig = true)) ∧
    (∀ (v1 v2 : VerifyBody) (pre post : List String) (x y : String),
      verifyFields v1 = pre ++ x :: post → verifyFields v2 = pre ++ y :: post →
      x ≠ y →
      ¬(verifySig h secret ts (verifyCore v1) sig = true ∧
        verifySig h secret ts (verifyCore v2) sig = true)) := by
  refine ⟨?_, ?_, ?_⟩
  · rintro b1 b2 pre post x y h1 h2 hxy ⟨hv1, hv2⟩
    have hcore := verifySig_same_sig_inj hinj hv1 hv2
    rw [birthCore_eq_fields, birthCore_eq_fields, h1, h2] at hcore
    exact hxy (joinBar_one_diff hcore)
  · rintro t1 t2 pre post x y h1 h2 hxy ⟨hv1, hv2⟩
    have hcore := verifySig_same_sig_inj hinj hv1 hv2
    rw [transferCore_eq_fields, transferCore_eq_fields, h1, h2] at hcore
    exact hxy (joinBar_one_diff hcore)
  · rintro v1 v2 pre post x y h1 h2 hxy ⟨hv1, hv2⟩
    have hcore := verifySig_same_sig_inj hinj hv1 hv2
    rw [verifyCore_eq_fields, verifyCore_eq_fields, h1, h2] at hcore
    exact hxy (joinBar_one_diff hcore)

theorem sig_binds_distinct_renderings_witness :
    ¬(verifySig (fun s => s) "k" 0
        (birthCore ⟨some 0, none, some "C", some 1, some "A", some "P2", some 3,
          some 2, some "H", some "O", none⟩)
        "0|C|1|A|P2|3|2|H|O|k" = true ∧
      verifySig (fun s => s) "k" 0
        (birthCore ⟨some 0, none, some "C", some 1, some "B", some "P2", some 3,
          some 2, some "H", some "O", none⟩)
        "0|C|1|A|P2|3|2|H|O|k" = true) :=
  (sig_binds_distinct_renderings (fun s => s) (fun _ _ hh => hh) "k" 0
      "0|C|1|A|P2|3|2|H|O|k").1
    ⟨some 0, none, some "C", some 1, some "A", some "P2", some 3, some 2,
     some "H", some "O", none⟩
    ⟨some 0, none, some "C", some 1, some "B", some "P2", some 3, some 2,
     some "H", some "O", none⟩
    ["C", "1"] ["P2", "3", "2", "H", "O"] "A" "B"
    (by decide) (by decide) (by decide)

end EBK
